import Mathlib

/-!
Verification development for the kuack-io agent: a shallow embedding of the
Execution Engine (`Runtime` in src/src/runtime.test.ts, second document, the
current version; the older discovery-based `executePod` from src/src/runtime.ts
is embedded separately) and of the Session Manager (`Connection` in
src/unnamed/part_001).  Asynchronous I/O steps (registry fetches, WebSocket
events, WASM instantiation) are modelled by oracles describing their outcomes,
and callbacks by accumulated lists.
-/

namespace KuackAgent

/-! ## Data model (runtime.test.ts lines 977-1006) -/

/-- `PodStatus.phase` values. -/
inductive Phase
  | Pending
  | Running
  | Succeeded
  | Failed
deriving DecidableEq, Repr

/-- One streamed pod status: a phase plus a human-readable message. -/
structure PodStatus where
  phase : Phase
  message : String
deriving DecidableEq, Repr

/-- One `{name, value}` environment entry of a container spec. -/
structure EnvVar where
  name : String
  value : String
deriving DecidableEq, Repr

/-- `WasmSpec` of the current runtime: optional explicit module path, variant
tag, alternate image and execution-mode tag (`type`). -/
structure WasmSpec where
  path : Option String := none
  variant : Option String := none
  image : Option String := none
  type : Option String := none
deriving DecidableEq, Repr

/-- A container spec of a pod. -/
structure ContainerSpec where
  name : String
  image : String
  command : Option (List String) := none
  args : Option (List String) := none
  env : Option (List EnvVar) := none
  wasm : Option WasmSpec := none
deriving DecidableEq, Repr

/-- Pod identity metadata. -/
structure PodMeta where
  name : String
  namespaceName : String
deriving DecidableEq, Repr

/-- A pod spec: identity plus an ordered list of containers. -/
structure PodSpec where
  metadata : PodMeta
  containers : List ContainerSpec
deriving DecidableEq, Repr

/-! ## URL model and token sanitization (runtime.test.ts lines 1019-1028, 1141-1239)

A registry URL is modelled as a base string plus an ordered list of query
parameters; `setParam` reproduces `URLSearchParams.set` (overwrite in place if
the key exists, append otherwise). -/

/-- A URL: base plus ordered query parameters. -/
structure Url where
  base : String
  params : List (String × String)
deriving DecidableEq, Repr

/-- `url.searchParams.has k`. -/
def Url.hasParam (u : Url) (k : String) : Bool :=
  u.params.any (fun p => p.1 == k)

/-- `url.searchParams.set k v`: overwrite the value in place when the key is
present, append the pair otherwise. -/
def Url.setParam (u : Url) (k v : String) : Url :=
  if u.hasParam k then
    { u with params := u.params.map (fun p => if p.1 == k then (k, v) else p) }
  else
    { u with params := u.params ++ [(k, v)] }

/-- Join strings with `&` separators (the rendering of a query string). -/
def joinAmp : List String → String
  | [] => ""
  | [x] => x
  | x :: xs => x ++ "&" ++ joinAmp xs

/-- `url.toString()`: base followed by the query string. -/
def Url.render (u : Url) : String :=
  u.base ++ "?" ++ joinAmp (u.params.map (fun p => p.1 ++ "=" ++ p.2))

/-- `Runtime.sanitizeUrlForLogging` (runtime.test.ts lines 1022-1028): copy the
URL and replace a present `token` query parameter by `***`. -/
def sanitizeUrlForLogging (u : Url) : Url :=
  if u.hasParam "token" then u.setParam "token" "***" else u

/-- `Runtime.buildRegistryUrl` on an absolute registry proxy URL. -/
def buildRegistryUrl (registryProxyUrl : String) : Url :=
  { base := registryProxyUrl, params := [] }

/-- The image reference used for downloads: `container.wasm?.image ?? container.image`. -/
def wasmImageRef (c : ContainerSpec) : String :=
  ((c.wasm.bind (fun w => w.image)).getD c.image)

/-- URL built by `Runtime.downloadFile` (runtime.test.ts lines 1141-1151):
`image`, `path`, then `token` when the token is non-empty, then `variant`
when present. -/
def downloadFileUrl (registry token imageRef path : String) (variant : Option String) : Url :=
  let u := (buildRegistryUrl registry).setParam "image" imageRef
  let u := u.setParam "path" path
  let u := if token ≠ "" then u.setParam "token" token else u
  match variant with
  | some v => u.setParam "variant" v
  | none => u

/-- URL built by `Runtime.downloadWASM` (runtime.test.ts lines 1171-1183):
`image`, then `path` only when the container carries one, then `token` when
non-empty, then `variant` when present. -/
def downloadWASMUrl (registry token : String) (c : ContainerSpec) : Url :=
  let u := (buildRegistryUrl registry).setParam "image" (wasmImageRef c)
  let u := match c.wasm.bind (fun w => w.path) with
    | some p => u.setParam "path" p
    | none => u
  let u := if token ≠ "" then u.setParam "token" token else u
  match c.wasm.bind (fun w => w.variant) with
  | some v => u.setParam "variant" v
  | none => u

/-- Replace the suffix `suf` of `s` by `rep` when `s` ends with it (the
behaviour of a `$`-anchored regex replace), otherwise return `s` unchanged.
Implemented over the character list so that it evaluates by reduction. -/
def replaceEndSuffix (s suf rep : String) : String :=
  if suf.data.isSuffixOf s.data then
    String.mk (s.data.take (s.data.length - suf.data.length)) ++ rep
  else s

/-- JS glue path derivation in `Runtime.downloadJS`:
`wasmPath.replace(/_bg\.wasm$/, ".js")`. -/
def jsPathOfWasmPath (wasmPath : String) : String :=
  replaceEndSuffix wasmPath "_bg.wasm" ".js"

/-- URL built by `Runtime.downloadJS` (runtime.test.ts lines 1205-1217):
`image`, derived JS `path`, then `token` when non-empty, then `variant`. -/
def downloadJSUrl (registry token wasmPath imageRef : String) (variant : Option String) : Url :=
  let u := (buildRegistryUrl registry).setParam "image" imageRef
  let u := u.setParam "path" (jsPathOfWasmPath wasmPath)
  let u := if token ≠ "" then u.setParam "token" token else u
  match variant with
  | some v => u.setParam "variant" v
  | none => u

/-- What one download observably does: the console log line and the URL given
to `fetch`. -/
structure DownloadTrace where
  loggedLine : String
  fetchedUrl : String
deriving DecidableEq, Repr

/-- Log line and fetch URL of `Runtime.downloadFile` (runtime.test.ts line 1152, 1154). -/
def downloadFileTrace (registry token imageRef path : String) (variant : Option String) :
    DownloadTrace :=
  let url := downloadFileUrl registry token imageRef path variant
  { loggedLine := "[Runtime] Downloading file " ++ path ++ " from " ++
      (sanitizeUrlForLogging url).render,
    fetchedUrl := url.render }

/-- Log line and fetch URL of `Runtime.downloadWASM` (runtime.test.ts line 1185, 1187). -/
def downloadWASMTrace (registry token : String) (c : ContainerSpec) : DownloadTrace :=
  let url := downloadWASMUrl registry token c
  { loggedLine := "[Runtime] Downloading WASM from " ++ (sanitizeUrlForLogging url).render,
    fetchedUrl := url.render }

/-- Log line and fetch URL of `Runtime.downloadJS` (runtime.test.ts line 1219, 1221). -/
def downloadJSTrace (registry token wasmPath imageRef : String) (variant : Option String) :
    DownloadTrace :=
  let url := downloadJSUrl registry token wasmPath imageRef variant
  { loggedLine := "[Runtime] Downloading JS glue code from " ++
      (sanitizeUrlForLogging url).render,
    fetchedUrl := url.render }

/-! ## Execution mode (runtime.test.ts lines 1061-1062)

`const wasmType = container.wasm.type || "wasi"` — JS `||` also replaces the
empty string — and `const isWasi = wasmType === "wasi"`. -/

/-- The effective `wasmType` string of a wasm spec. -/
def wasmTypeOf (w : WasmSpec) : String :=
  match w.type with
  | some t => if t = "" then "wasi" else t
  | none => "wasi"

/-- The two execution strategies. -/
inductive ExecMode
  | wasi
  | bindgen
deriving DecidableEq, Repr

/-- Execution mode selected for a wasm spec. -/
def modeOf (w : WasmSpec) : ExecMode :=
  if wasmTypeOf w = "wasi" then ExecMode.wasi else ExecMode.bindgen

/-! ## Sandbox-syscall executor (`Runtime.executeWASI`, runtime.test.ts lines 1350-1415)

The WASM-level effects are an oracle: whether `WebAssembly.instantiate`
throws, whether `wasi.start` traps, the lines written to fd 1/2 during the
run, and the numeric exit code returned by `_start`.  The abort signal is a
fixed boolean, the sequential semantics of `AbortSignal` (a signal aborted
before the call). -/

/-- Oracle for one WASI run. -/
structure WasiRun where
  instErr : Option String := none
  startTrap : Option String := none
  writes : List String := []
  exitCode : Int := 0
deriving DecidableEq, Repr

/-- `Runtime.executeWASI`: returns the lines passed to the log callback and
either normal completion or the thrown error. -/
def executeWASI (signalAborted : Bool) (run : WasiRun) : List String × Except String Unit :=
  if signalAborted then ([], Except.error "Execution aborted")
  else
    match run.instErr with
    | some e => ([], Except.error e)
    | none =>
      match run.startTrap with
      | some e => (run.writes, Except.error e)
      | none =>
        let logs := run.writes ++
          ["WASI execution completed with exit code: " ++ toString run.exitCode]
        if run.exitCode = 0 then (logs, Except.ok ())
        else (logs, Except.error ("Process exited with code " ++ toString run.exitCode))

/-! ## Host-bridge executor (`Runtime.executeWASM`, runtime.test.ts lines 1246-1348)

Console interception forwards each console line to the log callback; the glue
module behaviour (import, init, presence and result of `main`) is an oracle. -/

/-- Oracle for one wasm-bindgen run. -/
structure BindgenRun where
  importErr : Option String := none
  initErr : Option String := none
  hasMain : Bool := true
  mainErr : Option String := none
  mainResult : Option String := none
deriving DecidableEq, Repr

/-- `Runtime.executeWASM`: log lines (console lines are intercepted and
forwarded) and either normal completion or the thrown error. -/
def executeWASM (signalAborted : Bool) (run : BindgenRun) : List String × Except String Unit :=
  let l0 := ["[Runtime] Loading wasm-bindgen JS module..."]
  if signalAborted then (l0, Except.error "Execution aborted")
  else
    match run.importErr with
    | some e => (l0, Except.error e)
    | none =>
      let l1 := l0 ++ ["[Runtime] Initializing wasm-bindgen module..."]
      match run.initErr with
      | some e => (l1, Except.error e)
      | none =>
        let l2 := l1 ++ ["[Runtime] Running WASM module..."]
        if run.hasMain then
          match run.mainErr with
          | some e => (l2, Except.error e)
          | none =>
            let l3 := l2 ++
              (match run.mainResult with
               | some r => ["WASM execution completed with result: " ++ r]
               | none => [])
            (l3 ++ ["[Runtime] WASM execution completed"], Except.ok ())
        else
          (l2 ++ ["WASM module initialized successfully (no main function found)",
                  "[Runtime] WASM execution completed"], Except.ok ())

/-! ## `Runtime.executePod` (current version, runtime.test.ts lines 1034-1128) -/

/-- Oracle for the asynchronous steps of one `executePod` call: outcomes of
the module download and of the glue download, the abort-signal state seen by
the executor, and the executor oracles. -/
structure PodEnv where
  wasmDl : Except String Unit := Except.ok ()
  jsDl : Except String String := Except.ok ""
  aborted : Bool := false
  wasiRun : WasiRun := {}
  bindgenRun : BindgenRun := {}
deriving Repr

/-- Observable output of the `try` block of `executePod`: statuses emitted
inside it, log-callback lines, and whether the glue download was attempted. -/
structure BodyOut where
  statuses : List PodStatus
  logs : List String
  jsAttempted : Bool
deriving DecidableEq, Repr

/-- The error message of the explicit-configuration check (runtime.test.ts line 1058). -/
def missingWasmMsg : String :=
  "Missing WASM configuration (path) in PodSpec. Node should have resolved this."

/-- The `try` block of `executePod` (runtime.test.ts lines 1049-1118): either
the output accumulated to normal completion, or the thrown error message
paired with the output accumulated before the throw. -/
def executePodTry (pod : PodSpec) (env : PodEnv) : Except (String × BodyOut) BodyOut :=
  match pod.containers.head? with
  | none => Except.error ("No containers specified", { statuses := [], logs := [], jsAttempted := false })
  | some c =>
    match c.wasm with
    | none => Except.error (missingWasmMsg, { statuses := [], logs := [], jsAttempted := false })
    | some w =>
      match w.path with
      | none => Except.error (missingWasmMsg, { statuses := [], logs := [], jsAttempted := false })
      | some wasmPath =>
        if wasmPath = "" then
          Except.error (missingWasmMsg, { statuses := [], logs := [], jsAttempted := false })
        else
          let isWasi : Bool := wasmTypeOf w = "wasi"
          match env.wasmDl with
          | Except.error e => Except.error (e, { statuses := [], logs := [], jsAttempted := false })
          | Except.ok _ =>
            let glue : Except (String × BodyOut) Bool :=
              if isWasi then Except.ok false
              else
                match env.jsDl with
                | Except.ok _ => Except.ok true
                | Except.error e =>
                  Except.error ("Failed to download JS glue for bindgen module: " ++ e,
                    { statuses := [], logs := [], jsAttempted := true })
            match glue with
            | Except.error x => Except.error x
            | Except.ok jsAtt =>
              let running : PodStatus :=
                { phase := Phase.Running,
                  message := if isWasi then "Executing WASI module"
                             else "Executing WASM module (bindgen)" }
              let execOut : List String × Except String Unit :=
                if isWasi then executeWASI env.aborted env.wasiRun
                else executeWASM env.aborted env.bindgenRun
              match execOut.2 with
              | Except.error e =>
                Except.error (e, { statuses := [running], logs := execOut.1, jsAttempted := jsAtt })
              | Except.ok _ =>
                let succeeded : PodStatus :=
                  { phase := Phase.Succeeded, message := "WASM execution completed" }
                Except.ok { statuses := [running, succeeded], logs := execOut.1,
                            jsAttempted := jsAtt }

/-- The status emitted first by `executePod` (runtime.test.ts lines 1044-1047). -/
def pendingStatus : PodStatus :=
  { phase := Phase.Pending, message := "Downloading WASM module" }

/-- Observable result of a whole `executePod` call.  The function is total:
the catch clause converts every thrown error into a final Failed status, so no
error propagates past the boundary (recorded in `err` for inspection). -/
structure ExecResult where
  statuses : List PodStatus
  logs : List String
  jsAttempted : Bool
  err : Option String
deriving DecidableEq, Repr

/-- `Runtime.executePod`: emits Pending, runs the `try` block, and converts a
thrown error into a terminal `Failed / "Execution error: <error>"` status. -/
def executePod (pod : PodSpec) (env : PodEnv) : ExecResult :=
  match executePodTry pod env with
  | Except.ok b =>
    { statuses := pendingStatus :: b.statuses, logs := b.logs,
      jsAttempted := b.jsAttempted, err := none }
  | Except.error (e, b) =>
    { statuses := pendingStatus :: b.statuses ++
        [{ phase := Phase.Failed, message := "Execution error: " ++ e }],
      logs := b.logs, jsAttempted := b.jsAttempted, err := some e }

/-! ## Discovery block of the older `executePod` (src/src/runtime.ts lines 73-113)

The older engine version discovers the module path before downloading.  The
outcome of fetching and parsing `pkg/package.json` is an oracle: a throw from
`downloadFile`/`JSON.parse`, or the parsed `main` field when it is a string. -/

/-- `ConnectionState` (part_001 line 21). -/
inductive ConnectionState
  | disconnected
  | connecting
  | connected
  | reconnecting
deriving DecidableEq, Repr

/-- The mutable fields of a `Connection` instance that the state machine
touches (part_001 lines 29-44). -/
structure ConnState where
  reconnectDelay : Nat := 200
  shouldReconnect : Bool := true
  hasConnectedOnce : Bool := false
  isConnecting : Bool := false
  heartbeatTimer : Bool := false
  currentState : ConnectionState := ConnectionState.disconnected
deriving DecidableEq, Repr

/-- A freshly constructed `Connection`: field initializers of part_001. -/
def connInit : ConnState := {}

/-- `CLOSE_CODE_DUPLICATE_BROWSER` (part_001 line 48). -/
def closeCodeDuplicateBrowser : Nat := 4001

/-- `maxReconnectDelay` (part_001 line 30). -/
def maxReconnectDelay : Nat := 3000

/-- Initial `reconnectDelay` (part_001 line 29). -/
def initialReconnectDelay : Nat := 200

/-- `setState` (part_001 lines 526-533): update `currentState` and notify the
state-change callback only when the state actually changes.  Returns the new
state record and the list of emitted state-change notifications. -/
def setState (s : ConnState) (st : ConnectionState) : ConnState × List ConnectionState :=
  if s.currentState ≠ st then ({ s with currentState := st }, [st]) else (s, [])

/-- `this.reconnectDelay = Math.min(this.reconnectDelay * 2, this.maxReconnectDelay)`
(part_001 line 544). -/
def nextReconnectDelay (d : Nat) : Nat :=
  min (2 * d) maxReconnectDelay

/-- Firing of the timer scheduled by `handleDisconnect` (part_001 lines
542-547): when reconnection is still desired, double the delay (capped) and
call `connect`; the boolean reports whether `connect` was invoked. -/
def reconnectTimerFire (s : ConnState) : ConnState × Bool :=
  if s.shouldReconnect then
    ({ s with reconnectDelay := nextReconnectDelay s.reconnectDelay }, true)
  else (s, false)

/-- The delay with which the n-th consecutive automatic reconnection attempt
is scheduled: `handleDisconnect` waits the current `reconnectDelay` and the
doubling of part_001 line 544 happens when the timer fires, so attempt 0 is
scheduled after the initial 200 ms and attempt n+1 after
`nextReconnectDelay` of attempt n's delay. -/
def reconnectDelaySeq : Nat → Nat
  | 0 => initialReconnectDelay
  | n + 1 => nextReconnectDelay (reconnectDelaySeq n)

/-- Observable outcome of one `socket.onclose` invocation. -/
structure CloseOut where
  state : ConnState
  emitted : List ConnectionState
  reconnectScheduled : Bool
deriving DecidableEq, Repr

/-- The `socket.onclose` handler (part_001 lines 132-158): clear the heartbeat
timer; on the duplicate-browser close code disable reconnection and go
straight to `disconnected`; otherwise enter `reconnecting` and schedule a
retry when reconnection is still desired, else go to `disconnected`. -/
def onClose (s0 : ConnState) (code : Nat) : CloseOut :=
  let s := { s0 with isConnecting := false, heartbeatTimer := false }
  if code = closeCodeDuplicateBrowser then
    let s := { s with shouldReconnect := false }
    let (s, em) := setState s ConnectionState.disconnected
    { state := s, emitted := em, reconnectScheduled := false }
  else if s.shouldReconnect then
    let (s, em) := setState s ConnectionState.reconnecting
    { state := s, emitted := em, reconnectScheduled := true }
  else
    let (s, em) := setState s ConnectionState.disconnected
    { state := s, emitted := em, reconnectScheduled := false }

/-- Outcome of the awaited part of one `connect()` call: the transport failed
to open (open error or the 10 s timeout), the transport opened but
`register()` (or starting the heartbeat) threw, or everything succeeded. -/
inductive ConnectOutcome
  | openFail (e : String)
  | registerFail (e : String)
  | success
deriving DecidableEq, Repr

/-- Observable result of one `connect()` call. -/
structure ConnectResult where
  state : ConnState
  thrown : Option String
  retryScheduled : Bool
  emitted : List ConnectionState
deriving DecidableEq, Repr

/-- `Connection.connect` (part_001 lines 74-180) for an idle instance: set
`isConnecting` and `shouldReconnect`, emit `connecting`; on open the handler
sets `hasConnectedOnce` (line 108) before `register()` runs; the catch clause
(lines 168-179) schedules a retry instead of rethrowing exactly when
`shouldReconnect && hasConnectedOnce` holds at that point. -/
def connectAttempt (s0 : ConnState) (o : ConnectOutcome) : ConnectResult :=
  let s := { s0 with isConnecting := true, shouldReconnect := true }
  let (s, em1) := setState s ConnectionState.connecting
  match o with
  | ConnectOutcome.openFail e =>
    let s := { s with isConnecting := false }
    if s.shouldReconnect && s.hasConnectedOnce then
      { state := s, thrown := none, retryScheduled := true, emitted := em1 }
    else
      { state := s, thrown := some e, retryScheduled := false, emitted := em1 }
  | ConnectOutcome.registerFail e =>
    let s := { s with hasConnectedOnce := true }
    let s := { s with isConnecting := false }
    if s.shouldReconnect && s.hasConnectedOnce then
      { state := s, thrown := none, retryScheduled := true, emitted := em1 }
    else
      { state := s, thrown := some e, retryScheduled := false, emitted := em1 }
  | ConnectOutcome.success =>
    let s := { s with hasConnectedOnce := true, heartbeatTimer := true, isConnecting := false }
    let (s, em2) := setState s ConnectionState.connected
    { state := s, thrown := none, retryScheduled := false, emitted := em1 ++ em2 }

/-! ## Memory detection tiers (`Connection.detectResources`, part_001 lines 234-306)

Device-memory quantities are exact rationals (GB).  `heapGB` is the rounded
`performance.memory.jsHeapSizeLimit` estimate when that API is available,
`deviceGB` is `navigator.deviceMemory`. -/

/-- JS falsiness of the `memoryGB` variable: `undefined` or `0`. -/
def jsFalsyQ (m : Option ℚ) : Bool :=
  match m with
  | none => true
  | some q => q == 0

/-- The tiered estimate from total device memory (part_001 lines 279-292). -/
def estimateMemoryFromDevice (d : ℚ) : ℚ :=
  if d ≤ 2 then max (1/2) (d * (8/10))
  else if d ≤ 4 then 2
  else if d ≤ 8 then min 4 (max 2 (d * (5/10)))
  else 4

/-- The error message thrown when no memory source is available (part_001 lines 302-306). -/
def memUnavailableMsg : String :=
  "Unable to detect available memory - memory APIs not available."

/-- The memory-detection portion of `detectResources` (part_001 lines
234-306): prefer the heap estimate; otherwise, when `deviceMemory` is exposed
and positive, apply the tiered heuristics; finally throw when the result is
still missing or below 0.1. -/
def detectMemoryGB (heapGB deviceGB : Option ℚ) : Except String ℚ :=
  let m1 := heapGB
  let m2 :=
    if jsFalsyQ m1 then
      match deviceGB with
      | some d => if 0 < d then some (estimateMemoryFromDevice d) else m1
      | none => m1
    else m1
  match m2 with
  | some g => if g < 1/10 then Except.error memUnavailableMsg else Except.ok g
  | none => Except.error memUnavailableMsg

/-! ## Durable browser identifier (`Connection.getOrCreateBrowserId`, part_001 lines 396-424) -/

/-- The localStorage collaborator: the value stored under `kuack-browser-id`,
and whether `getItem` / `setItem` throw. -/
structure BrowserStorage where
  stored : Option String := none
  getThrows : Bool := false
  setThrows : Bool := false
deriving DecidableEq, Repr

/-- The `try` block of `getOrCreateBrowserId` (part_001 lines 405-417):
return the stored identifier when present, otherwise store and return a
freshly generated UUID; a throwing `getItem`/`setItem` escapes as an error. -/
def getOrCreateBrowserIdTry (st : BrowserStorage) (freshId : String) :
    Except String (String × BrowserStorage) :=
  if st.getThrows then Except.error "localStorage unavailable"
  else
    match st.stored with
    | some existingId => Except.ok (existingId, st)
    | none =>
      if st.setThrows then Except.error "localStorage unavailable"
      else Except.ok (freshId, { st with stored := some freshId })

/-- `getOrCreateBrowserId` (part_001 lines 402-424): the catch clause returns
a second freshly generated session-only UUID, so construction never fails. -/
def getOrCreateBrowserId (st : BrowserStorage) (freshId fallbackId : String) :
    String × BrowserStorage :=
  match getOrCreateBrowserIdTry st freshId with
  | Except.ok r => r
  | Except.error _ => (fallbackId, st)

/-! ## Concrete fixtures used by witnesses and counterexamples -/

/-- A pod with an empty container list. -/
def noContainerPod : PodSpec :=
  { metadata := { name := "empty-pod", namespaceName := "default" }, containers := [] }

/-- A container carrying an explicit module path and no execution-mode tag. -/
def wasiContainer : ContainerSpec :=
  { name := "test-container", image := "test-image:latest",
    wasm := some { path := some "pkg/m_bg.wasm" } }

/-- A pod whose single container is `wasiContainer`. -/
def wasiPod : PodSpec :=
  { metadata := { name := "test-pod", namespaceName := "default" },
    containers := [wasiContainer] }

/-- An environment whose WASI run exits with code 3. -/
def exit3Env : PodEnv := { wasiRun := { exitCode := 3 } }

/-! ## Theorems -/

/-- Auxiliary: a map that renames a key rewrites nothing when the key is
absent from the parameter list. -/
theorem map_setval_of_not_has (l : List (String × String)) (k v : String)
    (h : l.any (fun p => p.1 == k) = false) :
    l.map (fun p => if p.1 == k then (k, v) else p) = l := by
  induction l with
  | nil => rfl
  | cons a l ih =>
    simp only [List.any_cons, Bool.or_eq_false_iff] at h
    simp only [List.map_cons, h.1, Bool.false_eq_true, if_false, ih h.2]

/-- Auxiliary: when `executePodTry` throws, `executePod` ends with the
corresponding `Failed / "Execution error: <error>"` status. -/
theorem executePod_last_failed_of_try_error (pod : PodSpec) (env : PodEnv) (e : String)
    (b : BodyOut) (h : executePodTry pod env = Except.error (e, b)) :
    (executePod pod env).statuses.getLast? =
      some { phase := Phase.Failed, message := "Execution error: " ++ e } := by
  simp only [executePod, h]
  exact List.getLast?_concat (pendingStatus :: b.statuses)

/-- C1: `executePod` is total — it resolves for every pod spec and callback
pair without propagating any error (its Lean embedding returns a plain
`ExecResult`, the `catch` clause having been translated into the
`Except.error` branch) — it always emits at least one status, the first being
`Pending`, and whenever any internal step throws (missing container, missing
explicit wasm configuration, failed download, glue failure, executor trap,
non-zero exit, cancellation — i.e. whenever `executePodTry` yields an error),
the last status emitted is `Failed` with message `Execution error: <error>`. -/
theorem executePod_total_and_failed_on_error (pod : PodSpec) (env : PodEnv) :
    (executePod pod env).statuses ≠ [] ∧
    (executePod pod env).statuses.head? = some pendingStatus ∧
    (∀ e b, executePodTry pod env = Except.error (e, b) →
      (executePod pod env).statuses.getLast? =
        some { phase := Phase.Failed, message := "Execution error: " ++ e }) := by
  refine ⟨?_, ?_, ?_⟩
  · cases h : executePodTry pod env with
    | ok b => simp [executePod, h]
    | error x => cases x with | mk e b => simp [executePod, h]
  · cases h : executePodTry pod env with
    | ok b => simp [executePod, h]
    | error x => cases x with | mk e b => simp [executePod, h]
  · intro e b h
    exact executePod_last_failed_of_try_error pod env e b h

/-- Witness for C1: a pod with no containers makes the body throw, and the
final status is `Failed / "Execution error: No containers specified"`. -/
theorem executePod_total_and_failed_on_error_witness :
    executePodTry noContainerPod {} =
      Except.error ("No containers specified", { statuses := [], logs := [], jsAttempted := false }) ∧
    (executePod noContainerPod {}).statuses.getLast? =
      some { phase := Phase.Failed, message := "Execution error: No containers specified" } :=
  ⟨rfl, (executePod_total_and_failed_on_error noContainerPod {}).2.2 _ _ rfl⟩

/-- C3: when `wasm.type` is unset and an explicit `wasm.path` is set, the
engine selects the sandbox-syscall (WASI) mode by default and never attempts
the glue download; and in general the glue download is attempted only when
the effective mode is the host-bridge (wasm-bindgen) mode. -/
theorem wasi_default_no_glue_download (pod : PodSpec) (env : PodEnv) (c : ContainerSpec)
    (w : WasmSpec) (p : String) (hc : pod.containers.head? = some c) (hw : c.wasm = some w)
    (ht : w.type = none) (hp : w.path = some p) :
    (modeOf w = ExecMode.wasi ∧ (executePod pod env).jsAttempted = false) ∧
    (∀ pod2 env2, (executePod pod2 env2).jsAttempted = true →
      ∃ c2 w2, pod2.containers.head? = some c2 ∧ c2.wasm = some w2 ∧
        modeOf w2 = ExecMode.bindgen) := by
  constructor
  · have hwasi : wasmTypeOf w = "wasi" := by simp [wasmTypeOf, ht]
    refine ⟨by simp [modeOf, hwasi], ?_⟩
    by_cases hp0 : p = ""
    · simp [executePod, executePodTry, hc, hw, hp, hp0]
    · cases hdl : env.wasmDl with
      | error e => simp [executePod, executePodTry, hc, hw, hp, hp0, hdl]
      | ok u =>
        cases hex : (executeWASI env.aborted env.wasiRun).2 with
        | error e => simp [executePod, executePodTry, hc, hw, hp, hp0, hdl, hwasi, hex]
        | ok u2 => simp [executePod, executePodTry, hc, hw, hp, hp0, hdl, hwasi, hex]
  · intro pod2 env2 hj
    cases hc2 : pod2.containers.head? with
    | none => simp [executePod, executePodTry, hc2] at hj
    | some c2 =>
      cases hw2 : c2.wasm with
      | none => simp [executePod, executePodTry, hc2, hw2] at hj
      | some w2 =>
        cases hp2 : w2.path with
        | none => simp [executePod, executePodTry, hc2, hw2, hp2] at hj
        | some p2 =>
          by_cases hp0 : p2 = ""
          · simp [executePod, executePodTry, hc2, hw2, hp2, hp0] at hj
          · by_cases hwasi : wasmTypeOf w2 = "wasi"
            · exfalso
              cases hdl : env2.wasmDl with
              | error e => simp [executePod, executePodTry, hc2, hw2, hp2, hp0, hdl] at hj
              | ok u =>
                cases hex : (executeWASI env2.aborted env2.wasiRun).2 with
                | error e =>
                  simp [executePod, executePodTry, hc2, hw2, hp2, hp0, hdl, hwasi, hex] at hj
                | ok u2 =>
                  simp [executePod, executePodTry, hc2, hw2, hp2, hp0, hdl, hwasi, hex] at hj
            · exact ⟨c2, w2, rfl, hw2, by simp [modeOf, hwasi]⟩

/-- Witness for C3 at the concrete WASI pod with an always-succeeding
environment. -/
theorem wasi_default_no_glue_download_witness :
    modeOf { path := some "pkg/m_bg.wasm" } = ExecMode.wasi ∧
    (executePod wasiPod {}).jsAttempted = false :=
  (wasi_default_no_glue_download wasiPod {} wasiContainer { path := some "pkg/m_bg.wasm" }
    "pkg/m_bg.wasm" rfl rfl rfl rfl).1

/-- C4: in WASI execution with a signal that is not aborted, a successful
instantiation and a returning start entry point, the log line
`WASI execution completed with exit code: N` is emitted; `executeWASI`
returns normally exactly when `N = 0` and throws
`Process exited with code N` otherwise; and through `executePod` a non-zero
exit surfaces as a final `Failed` status with message
`Execution error: Process exited with code N`. -/
theorem wasi_exit_code_semantics (run : WasiRun) (pod : PodSpec) (env : PodEnv)
    (c : ContainerSpec) (w : WasmSpec) (p : String)
    (h1 : run.instErr = none) (h2 : run.startTrap = none) :
    ("WASI execution completed with exit code: " ++ toString run.exitCode) ∈
        (executeWASI false run).1 ∧
    (run.exitCode = 0 → (executeWASI false run).2 = Except.ok ()) ∧
    (run.exitCode ≠ 0 → (executeWASI false run).2 =
        Except.error ("Process exited with code " ++ toString run.exitCode)) ∧
    (run.exitCode ≠ 0 → pod.containers.head? = some c → c.wasm = some w →
      w.path = some p → p ≠ "" → wasmTypeOf w = "wasi" → env.wasmDl = Except.ok () →
      env.aborted = false → env.wasiRun = run →
      (executePod pod env).statuses.getLast? =
        some { phase := Phase.Failed,
               message := "Execution error: " ++
                 ("Process exited with code " ++ toString run.exitCode) }) := by
  refine ⟨?_, ?_, ?_, ?_⟩
  · by_cases h0 : run.exitCode = 0 <;>
      simp [executeWASI, h1, h2, h0, List.mem_append]
  · intro h0
    simp [executeWASI, h1, h2, h0]
  · intro h0
    simp [executeWASI, h1, h2, h0]
  · intro h0 hc hw hp hp0 hwasi hdl hab hrun
    have hex : (executeWASI env.aborted env.wasiRun).2 =
        Except.error ("Process exited with code " ++ toString run.exitCode) := by
      rw [hab, hrun]
      simp [executeWASI, h1, h2, h0]
    have htry : executePodTry pod env =
        Except.error ("Process exited with code " ++ toString run.exitCode,
          { statuses := [{ phase := Phase.Running, message := "Executing WASI module" }],
            logs := (executeWASI env.aborted env.wasiRun).1, jsAttempted := false }) := by
      cases hdl2 : env.wasmDl with
      | error e => rw [hdl] at hdl2; exact absurd hdl2 (by simp)
      | ok u =>
        simp [executePodTry, hc, hw, hp, hp0, hwasi, hdl2, hex]
    exact executePod_last_failed_of_try_error pod env _ _ htry

/-- Witness for C4: exit code 3 in the concrete WASI pod. -/
theorem wasi_exit_code_semantics_witness :
    ("WASI execution completed with exit code: " ++ toString (3 : Int)) ∈
        (executeWASI false { exitCode := 3 }).1 ∧
    (executePod wasiPod exit3Env).statuses.getLast? =
      some { phase := Phase.Failed,
             message := "Execution error: " ++ ("Process exited with code " ++ toString (3 : Int)) } :=
  ⟨(wasi_exit_code_semantics { exitCode := 3 } wasiPod exit3Env wasiContainer
      { path := some "pkg/m_bg.wasm" } "pkg/m_bg.wasm" rfl rfl).1,
   (wasi_exit_code_semantics { exitCode := 3 } wasiPod exit3Env wasiContainer
      { path := some "pkg/m_bg.wasm" } "pkg/m_bg.wasm" rfl rfl).2.2.2 (by decide) rfl rfl rfl
      (by decide) rfl rfl rfl rfl⟩

/-- Auxiliary: every scheduled reconnect delay stays at or below the cap. -/
theorem reconnectDelaySeq_le_cap (n : Nat) : reconnectDelaySeq n ≤ maxReconnectDelay := by
  cases n with
  | zero =>
    show initialReconnectDelay ≤ maxReconnectDelay
    decide
  | succ m =>
    show min (2 * reconnectDelaySeq m) maxReconnectDelay ≤ maxReconnectDelay
    exact min_le_right _ _

/-- C5: across consecutive automatic reconnection attempts the scheduled
delay is monotonically non-decreasing (the timer doubles the stored delay
when it fires), never exceeds the configured maximum, and a successful
`connect` (the success branch of `connectAttempt`) leaves the stored delay
unchanged — it is not reset to the floor. -/
theorem reconnect_backoff_monotone (n : Nat) (s : ConnState) :
    reconnectDelaySeq n ≤ reconnectDelaySeq (n + 1) ∧
    reconnectDelaySeq n ≤ maxReconnectDelay ∧
    (s.shouldReconnect = true →
      (reconnectTimerFire s).1.reconnectDelay = nextReconnectDelay s.reconnectDelay) ∧
    (connectAttempt s ConnectOutcome.success).state.reconnectDelay = s.reconnectDelay := by
  refine ⟨?_, reconnectDelaySeq_le_cap n, ?_, ?_⟩
  · have hc := reconnectDelaySeq_le_cap n
    show reconnectDelaySeq n ≤ min (2 * reconnectDelaySeq n) maxReconnectDelay
    exact le_min (by omega) hc
  · intro h
    simp [reconnectTimerFire, h]
  · simp only [connectAttempt, setState]
    split <;> (try split) <;> rfl

/-- Witness for C5 at attempt 3 and a connected state. -/
theorem reconnect_backoff_monotone_witness :
    reconnectDelaySeq 3 ≤ reconnectDelaySeq 4 ∧
    (reconnectTimerFire connInit).1.reconnectDelay = nextReconnectDelay connInit.reconnectDelay ∧
    (connectAttempt connInit ConnectOutcome.success).state.reconnectDelay =
      connInit.reconnectDelay :=
  ⟨(reconnect_backoff_monotone 3 connInit).1,
   (reconnect_backoff_monotone 3 connInit).2.2.1 rfl,
   (reconnect_backoff_monotone 3 connInit).2.2.2⟩

/-- C6: a close event carrying the duplicate-identity code 4001 disables
reconnection permanently and transitions straight to `disconnected`: the
emitted state sequence never contains `reconnecting` (it is empty or exactly
`[disconnected]`), the final state is `disconnected`, no reconnection is
scheduled, and a previously scheduled backoff timer that fires afterwards
does not call `connect`. -/
theorem duplicate_close_disables_reconnect (s : ConnState) :
    (onClose s closeCodeDuplicateBrowser).state.currentState = ConnectionState.disconnected ∧
    (onClose s closeCodeDuplicateBrowser).state.shouldReconnect = false ∧
    (onClose s closeCodeDuplicateBrowser).reconnectScheduled = false ∧
    ((onClose s closeCodeDuplicateBrowser).emitted = [] ∨
      (onClose s closeCodeDuplicateBrowser).emitted = [ConnectionState.disconnected]) ∧
    (reconnectTimerFire (onClose s closeCodeDuplicateBrowser).state).2 = false := by
  by_cases h : s.currentState = ConnectionState.disconnected
  · refine ⟨?_, ?_, ?_, Or.inl ?_, ?_⟩ <;>
      simp [onClose, setState, closeCodeDuplicateBrowser, reconnectTimerFire, h]
  · refine ⟨?_, ?_, ?_, Or.inr ?_, ?_⟩ <;>
      simp [onClose, setState, closeCodeDuplicateBrowser, reconnectTimerFire, h]

/-- Witness for C6 from the connected state. -/
theorem duplicate_close_disables_reconnect_witness :
    (onClose { connInit with currentState := ConnectionState.connected }
      closeCodeDuplicateBrowser).state.currentState = ConnectionState.disconnected ∧
    (onClose { connInit with currentState := ConnectionState.connected }
      closeCodeDuplicateBrowser).reconnectScheduled = false :=
  ⟨(duplicate_close_disables_reconnect
      { connInit with currentState := ConnectionState.connected }).1,
   (duplicate_close_disables_reconnect
      { connInit with currentState := ConnectionState.connected }).2.2.1⟩

/-- C7 counterexample: the claim "if connect() fails (transport open error,
open timeout, or registration precondition failure) and this Connection
instance has never previously completed a successful connection, connect
rejects with the error and schedules no automatic retry" is false: on a
freshly constructed instance (no successful connection ever), a registration
precondition failure — the transport opened, then `register()` threw — makes
`connect` resolve without rejecting and schedules an automatic retry, because
`hasConnectedOnce` is set by the open handler before registration runs. -/
theorem register_fail_first_connect_cex :
    connInit.hasConnectedOnce = false ∧
    (connectAttempt connInit
      (ConnectOutcome.registerFail
        "Unable to detect CPU cores - hardwareConcurrency not available")).thrown = none ∧
    (connectAttempt connInit
      (ConnectOutcome.registerFail
        "Unable to detect CPU cores - hardwareConcurrency not available")).retryScheduled
      = true := by
  refine ⟨rfl, ?_, ?_⟩ <;> rfl

/-- C7 amended: `connect` rejects (and schedules no retry) exactly for
failures occurring before the transport has ever opened for this instance —
an open error or open timeout on an instance whose transport never opened;
once the transport has opened at least once, including earlier in the same
`connect` call even when registration then fails, a failure schedules an
automatic reconnection and `connect` does not reject. -/
theorem connect_reject_only_before_first_open (s : ConnState) (e : String) :
    (s.hasConnectedOnce = false →
      (connectAttempt s (ConnectOutcome.openFail e)).thrown = some e ∧
      (connectAttempt s (ConnectOutcome.openFail e)).retryScheduled = false) ∧
    (s.hasConnectedOnce = true →
      (connectAttempt s (ConnectOutcome.openFail e)).thrown = none ∧
      (connectAttempt s (ConnectOutcome.openFail e)).retryScheduled = true) ∧
    ((connectAttempt s (ConnectOutcome.registerFail e)).thrown = none ∧
      (connectAttempt s (ConnectOutcome.registerFail e)).retryScheduled = true) := by
  refine ⟨?_, ?_, ?_⟩
  · intro h
    by_cases hcs : s.currentState = ConnectionState.connecting <;>
      exact ⟨by simp [connectAttempt, setState, h, hcs],
             by simp [connectAttempt, setState, h, hcs]⟩
  · intro h
    by_cases hcs : s.currentState = ConnectionState.connecting <;>
      exact ⟨by simp [connectAttempt, setState, h, hcs],
             by simp [connectAttempt, setState, h, hcs]⟩
  · by_cases hcs : s.currentState = ConnectionState.connecting <;>
      exact ⟨by simp [connectAttempt, setState, hcs],
             by simp [connectAttempt, setState, hcs]⟩

/-- Witness for C7 amended: a first-time open failure rejects, and after a
prior successful connection the same failure retries instead. -/
theorem connect_reject_only_before_first_open_witness :
    ((connectAttempt connInit (ConnectOutcome.openFail "WebSocket connection failed")).thrown =
      some "WebSocket connection failed") ∧
    ((connectAttempt { connInit with hasConnectedOnce := true }
      (ConnectOutcome.openFail "WebSocket connection failed")).retryScheduled = true) :=
  ⟨((connect_reject_only_before_first_open connInit "WebSocket connection failed").1 rfl).1,
   ((connect_reject_only_before_first_open { connInit with hasConnectedOnce := true }
      "WebSocket connection failed").2.1 rfl).2⟩

/-- C8 counterexample: the claim "80% of D for D ≤ 2" is false at device
memory D = 1/4 GB (a value `navigator.deviceMemory` can report): the code
reports `max(0.5, 0.8 · D) = 0.5` GB, not `0.8 · D = 0.2` GB. -/
theorem memory_tier_small_device_cex :
    detectMemoryGB none (some (1/4 : ℚ)) = Except.ok (1/2 : ℚ) ∧
    ((1/2 : ℚ) ≠ (1/4 : ℚ) * (8/10 : ℚ)) := by
  constructor
  · simp only [detectMemoryGB, estimateMemoryFromDevice, jsFalsyQ]
    norm_num
  · norm_num

/-- C8 amended: when the heap ceiling is unavailable and the host exposes a
positive total device memory D (in GB), `detectResources` reports: 80% of D
but at least 0.5 GB for D ≤ 2; a fixed 2 GiB for 2 < D ≤ 4;
clamp(0.5·D, 2, 4) GiB for 4 < D ≤ 8; a fixed 4 GiB for D > 8; and it throws
when neither the heap ceiling nor device memory is available. -/
theorem memory_tiers_amended (d : ℚ) (hd : 0 < d) :
    (d ≤ 2 → detectMemoryGB none (some d) = Except.ok (max (d * (8/10)) (1/2))) ∧
    (2 < d → d ≤ 4 → detectMemoryGB none (some d) = Except.ok 2) ∧
    (4 < d → d ≤ 8 → detectMemoryGB none (some d) = Except.ok (min (max (d * (5/10)) 2) 4)) ∧
    (8 < d → detectMemoryGB none (some d) = Except.ok 4) ∧
    detectMemoryGB none none = Except.error memUnavailableMsg := by
  have half_le : ∀ x : ℚ, (1:ℚ)/2 ≤ max (1/2) x := fun x => le_max_left _ _
  have hdev : ∀ g : ℚ, estimateMemoryFromDevice d = g → ¬ g < 1/10 →
      detectMemoryGB none (some d) = Except.ok g := by
    intro g hg h10
    simp only [detectMemoryGB, jsFalsyQ, if_true, if_pos hd, hg]
    rw [if_neg h10]
  refine ⟨?_, ?_, ?_, ?_, rfl⟩
  · intro h2
    have hg : estimateMemoryFromDevice d = max (d * (8/10)) (1/2) := by
      rw [estimateMemoryFromDevice, if_pos h2, max_comm]
    exact hdev _ hg (by have := half_le (d * (8/10)); rw [max_comm] at this; linarith)
  · intro h2 h4
    have hg : estimateMemoryFromDevice d = 2 := by
      rw [estimateMemoryFromDevice, if_neg (not_le.mpr h2), if_pos h4]
    exact hdev _ hg (by norm_num)
  · intro h4 h8
    have hg : estimateMemoryFromDevice d = min (max (d * (5/10)) 2) 4 := by
      rw [estimateMemoryFromDevice, if_neg (not_le.mpr (by linarith : (2:ℚ) < d)),
        if_neg (not_le.mpr h4), if_pos h8, max_comm, min_comm]
    have hge : (2:ℚ) ≤ min (max (d * (5/10)) 2) 4 :=
      le_min (le_max_right _ _) (by norm_num)
    exact hdev _ hg (by linarith)
  · intro h8
    have hg : estimateMemoryFromDevice d = 4 := by
      rw [estimateMemoryFromDevice, if_neg (not_le.mpr (by linarith : (2:ℚ) < d)),
        if_neg (not_le.mpr (by linarith : (4:ℚ) < d)), if_neg (not_le.mpr h8)]
    exact hdev _ hg (by norm_num)

/-- Witness for C8 amended at D = 1 (tier 1) and D = 6 (tier 3). -/
theorem memory_tiers_amended_witness :
    detectMemoryGB none (some (1 : ℚ)) = Except.ok (max ((1 : ℚ) * (8/10)) (1/2)) ∧
    detectMemoryGB none (some (6 : ℚ)) = Except.ok (min (max ((6 : ℚ) * (5/10)) 2) 4) :=
  ⟨(memory_tiers_amended 1 (by norm_num)).1 (by norm_num),
   (memory_tiers_amended 6 (by norm_num)).2.2.1 (by norm_num) (by norm_num)⟩

/-- Auxiliary: sanitizing a `downloadFile` URL is the same as building it
with the literal token `***`. -/
theorem sanitize_downloadFileUrl (registry t i p : String) (v : Option String) (h : t ≠ "") :
    sanitizeUrlForLogging (downloadFileUrl registry t i p v) =
      downloadFileUrl registry "***" i p v := by
  cases v <;>
    simp [downloadFileUrl, buildRegistryUrl, Url.setParam, Url.hasParam,
      sanitizeUrlForLogging, h, (by decide : ("***" : String) ≠ "")]

/-- Auxiliary: sanitizing a `downloadWASM` URL is the same as building it
with the literal token `***`. -/
theorem sanitize_downloadWASMUrl (registry t : String) (c : ContainerSpec) (h : t ≠ "") :
    sanitizeUrlForLogging (downloadWASMUrl registry t c) =
      downloadWASMUrl registry "***" c := by
  cases hw : c.wasm with
  | none =>
    simp [downloadWASMUrl, buildRegistryUrl, Url.setParam, Url.hasParam,
      sanitizeUrlForLogging, hw, h, (by decide : ("***" : String) ≠ "")]
  | some w =>
    cases hp : w.path <;> cases hv : w.variant <;>
      simp [downloadWASMUrl, buildRegistryUrl, Url.setParam, Url.hasParam,
        sanitizeUrlForLogging, hw, hp, hv, h, (by decide : ("***" : String) ≠ "")]

/-- Auxiliary: sanitizing a `downloadJS` URL is the same as building it with
the literal token `***`. -/
theorem sanitize_downloadJSUrl (registry t wp i : String) (v : Option String) (h : t ≠ "") :
    sanitizeUrlForLogging (downloadJSUrl registry t wp i v) =
      downloadJSUrl registry "***" wp i v := by
  cases v <;>
    simp [downloadJSUrl, buildRegistryUrl, Url.setParam, Url.hasParam,
      sanitizeUrlForLogging, h, (by decide : ("***" : String) ≠ "")]

/-- C9: for every registry download of the Runtime (manifest text via
`downloadFile`, module bytes via `downloadWASM`, glue script via
`downloadJS`) with a non-empty token, the URL passed to `fetch` carries the
real token parameter, the URL written to the console log shows the token
parameter as `***`, and the logged line is independent of the token value (so
the token value never reaches the log through the token parameter). -/
theorem registry_download_token_sanitized (registry i p wp t t2 : String) (v : Option String)
    (c : ContainerSpec) (ht : t ≠ "") (ht2 : t2 ≠ "") :
    (("token", t) ∈ (downloadFileUrl registry t i p v).params ∧
      ("token", "***") ∈ (sanitizeUrlForLogging (downloadFileUrl registry t i p v)).params ∧
      (downloadFileTrace registry t i p v).loggedLine =
        (downloadFileTrace registry t2 i p v).loggedLine) ∧
    (("token", t) ∈ (downloadWASMUrl registry t c).params ∧
      ("token", "***") ∈ (sanitizeUrlForLogging (downloadWASMUrl registry t c)).params ∧
      (downloadWASMTrace registry t c).loggedLine =
        (downloadWASMTrace registry t2 c).loggedLine) ∧
    (("token", t) ∈ (downloadJSUrl registry t wp i v).params ∧
      ("token", "***") ∈ (sanitizeUrlForLogging (downloadJSUrl registry t wp i v)).params ∧
      (downloadJSTrace registry t wp i v).loggedLine =
        (downloadJSTrace registry t2 wp i v).loggedLine) := by
  refine ⟨⟨?_, ?_, ?_⟩, ⟨?_, ?_, ?_⟩, ⟨?_, ?_, ?_⟩⟩
  · cases v <;> simp [downloadFileUrl, buildRegistryUrl, Url.setParam, Url.hasParam, ht]
  · rw [sanitize_downloadFileUrl registry t i p v ht]
    cases v <;>
      simp [downloadFileUrl, buildRegistryUrl, Url.setParam, Url.hasParam,
        (by decide : ("***" : String) ≠ "")]
  · show "[Runtime] Downloading file " ++ p ++ " from " ++
        (sanitizeUrlForLogging (downloadFileUrl registry t i p v)).render =
      "[Runtime] Downloading file " ++ p ++ " from " ++
        (sanitizeUrlForLogging (downloadFileUrl registry t2 i p v)).render
    rw [sanitize_downloadFileUrl registry t i p v ht,
      sanitize_downloadFileUrl registry t2 i p v ht2]
  · cases hw : c.wasm with
    | none =>
      simp [downloadWASMUrl, buildRegistryUrl, Url.setParam, Url.hasParam, hw, ht]
    | some w =>
      cases hp : w.path <;> cases hv : w.variant <;>
        simp [downloadWASMUrl, buildRegistryUrl, Url.setParam, Url.hasParam, hw, hp, hv, ht]
  · rw [sanitize_downloadWASMUrl registry t c ht]
    cases hw : c.wasm with
    | none =>
      simp [downloadWASMUrl, buildRegistryUrl, Url.setParam, Url.hasParam, hw,
        (by decide : ("***" : String) ≠ "")]
    | some w =>
      cases hp : w.path <;> cases hv : w.variant <;>
        simp [downloadWASMUrl, buildRegistryUrl, Url.setParam, Url.hasParam, hw, hp, hv,
          (by decide : ("***" : String) ≠ "")]
  · show "[Runtime] Downloading WASM from " ++
        (sanitizeUrlForLogging (downloadWASMUrl registry t c)).render =
      "[Runtime] Downloading WASM from " ++
        (sanitizeUrlForLogging (downloadWASMUrl registry t2 c)).render
    rw [sanitize_downloadWASMUrl registry t c ht, sanitize_downloadWASMUrl registry t2 c ht2]
  · cases v <;> simp [downloadJSUrl, buildRegistryUrl, Url.setParam, Url.hasParam, ht]
  · rw [sanitize_downloadJSUrl registry t wp i v ht]
    cases v <;>
      simp [downloadJSUrl, buildRegistryUrl, Url.setParam, Url.hasParam,
        (by decide : ("***" : String) ≠ "")]
  · show "[Runtime] Downloading JS glue code from " ++
        (sanitizeUrlForLogging (downloadJSUrl registry t wp i v)).render =
      "[Runtime] Downloading JS glue code from " ++
        (sanitizeUrlForLogging (downloadJSUrl registry t2 wp i v)).render
    rw [sanitize_downloadJSUrl registry t wp i v ht, sanitize_downloadJSUrl registry t2 wp i v ht2]

/-- Witness for C9: concrete token `sek` against token `other` on the
concrete WASI container. -/
theorem registry_download_token_sanitized_witness :
    ("token", "sek") ∈ (downloadWASMUrl "http://r" "sek" wasiContainer).params ∧
    ("token", "***") ∈
      (sanitizeUrlForLogging (downloadWASMUrl "http://r" "sek" wasiContainer)).params ∧
    (downloadWASMTrace "http://r" "sek" wasiContainer).loggedLine =
      (downloadWASMTrace "http://r" "other" wasiContainer).loggedLine :=
  (registry_download_token_sanitized "http://r" "img" "pkg/package.json" "pkg/m_bg.wasm"
    "sek" "other" none wasiContainer (by decide) (by decide)).2.1

/-- C10: constructing a `Connection` never fails due to unavailable storage —
`getOrCreateBrowserId` is total and, when `getItem` or `setItem` throws, it
catches the error and returns a freshly generated session-only UUID without
touching the store; when storage is available, a stored identifier is
returned as-is on every construction, and a first construction stores its
fresh identifier so that a second construction returns the same one. -/
theorem browser_id_total_and_stable (st : BrowserStorage) (f1 f2 g1 g2 i : String) :
    (st.getThrows = true → getOrCreateBrowserId st f1 f2 = (f2, st)) ∧
    (st.getThrows = false → st.stored = none → st.setThrows = true →
      getOrCreateBrowserId st f1 f2 = (f2, st)) ∧
    (st.getThrows = false → st.stored = some i → getOrCreateBrowserId st f1 f2 = (i, st)) ∧
    (st.getThrows = false → st.setThrows = false → st.stored = none →
      (getOrCreateBrowserId st f1 f2).1 = f1 ∧
      (getOrCreateBrowserId (getOrCreateBrowserId st f1 f2).2 g1 g2).1 =
        (getOrCreateBrowserId st f1 f2).1) := by
  refine ⟨?_, ?_, ?_, ?_⟩
  · intro hg
    simp [getOrCreateBrowserId, getOrCreateBrowserIdTry, hg]
  · intro hg hs hset
    simp [getOrCreateBrowserId, getOrCreateBrowserIdTry, hg, hs, hset]
  · intro hg hs
    simp [getOrCreateBrowserId, getOrCreateBrowserIdTry, hg, hs]
  · intro hg hset hs
    constructor <;> simp [getOrCreateBrowserId, getOrCreateBrowserIdTry, hg, hs, hset]

/-- Witness for C10: throwing storage falls back to the session-only UUID;
available storage returns the stored identifier. -/
theorem browser_id_total_and_stable_witness :
    getOrCreateBrowserId { getThrows := true } "fresh-1" "fresh-2" =
      ("fresh-2", { getThrows := true }) ∧
    getOrCreateBrowserId { stored := some "id-0" } "fresh-1" "fresh-2" =
      ("id-0", { stored := some "id-0" }) ∧
    (getOrCreateBrowserId (getOrCreateBrowserId {} "fresh-1" "fresh-2").2 "g1" "g2").1 =
      (getOrCreateBrowserId {} "fresh-1" "fresh-2").1 :=
  ⟨(browser_id_total_and_stable { getThrows := true } "fresh-1" "fresh-2" "g1" "g2" "i").1 rfl,
   (browser_id_total_and_stable { stored := some "id-0" } "fresh-1" "fresh-2" "g1" "g2"
      "id-0").2.2.1 rfl rfl,
   ((browser_id_total_and_stable {} "fresh-1" "fresh-2" "g1" "g2" "i").2.2.2 rfl rfl rfl).2⟩

end KuackAgent
